import Mathlib

/-!
Shallow embedding of the Parsera TypeScript client core
(`src/services/parsera.ts`): the cancellable deadline wrapper
(`fetchWithTimeout`), the retry controller (`retryableRequest`,
`isRetryableError`), the extraction orchestrator (`extract`,
`handleError`), and the event bus (`on`, `emit`).

JavaScript `Error` values are modelled by their `name` and `message`
fields. Asynchronous control flow is modelled by explicit traces of
emitted events; the transport (`fetch`) is modelled by a script listing
the outcome of each successive attempt.
-/

namespace Parsera

/-- Model of a JavaScript `Error` value: its `name` and `message` fields,
which are the only fields the client inspects. -/
structure JsError where
  name : String
  message : String
  deriving DecidableEq, Repr

/-- The error thrown by `fetchWithTimeout` when the composite abort signal
fired: `name = "TimeoutError"`, `message = "Request timed out"`
(parsera.ts lines 283-284). -/
def timeoutError : JsError :=
  { name := "TimeoutError", message := "Request timed out" }

/-- The error with which `fetch` itself rejects when its abort signal fires:
a DOM `AbortError`. Only the `name` is inspected by the client. -/
def abortError : JsError :=
  { name := "AbortError", message := "The operation was aborted" }

/-- Model of the JSON body of an API response: `{ data, message? }` for
success payloads (`ParseraResponse`) and `{ message? }` for error payloads
(`ParseraError`). `data` is a list of string-keyed records. -/
structure RespBody where
  data : List (List (String × String))
  message : Option String
  deriving DecidableEq, Repr

/-- Model of a `fetch` `Response` as consumed by the client: `ok`,
`status`, `statusText`, and the parsed JSON body. -/
structure Response where
  ok : Bool
  status : Nat
  statusText : String
  body : RespBody
  deriving DecidableEq, Repr

/-- Retry policy (`ParseraRetryOptions` with defaults filled in by the
constructor: maxRetries 3, backoffFactor 2, initialDelay 1000). -/
structure RetryOptions where
  maxRetries : Nat
  backoffFactor : Nat
  initialDelay : Nat
  deriving DecidableEq, Repr

/-- JavaScript `String.prototype.includes` on explicit character lists:
`containsSub pat hay` holds when `pat` occurs contiguously in `hay`. -/
def containsSub (pat : List Char) : List Char → Bool
  | [] => pat.isEmpty
  | c :: t => pat.isPrefixOf (c :: t) || containsSub pat t

/-- JavaScript `haystack.includes(pattern)` on strings. -/
def strIncludes (haystack pattern : String) : Bool :=
  containsSub pattern.toList haystack.toList

/-- Parsera.isRetryableError (parsera.ts lines 337-344): a failure is
retryable exactly when its message contains one of the substrings
"network", "timeout", "ECONNRESET". -/
def isRetryableError (e : JsError) : Bool :=
  strIncludes e.message "network" ||
    strIncludes e.message "timeout" ||
    strIncludes e.message "ECONNRESET"

/-- Cause of the abort of one attempt: none, the per-attempt timeout
elapsed first, or the externally supplied cancellation signal fired
first. Both abort sources call `controller.abort()` on the composite
controller (parsera.ts lines 261-271). -/
inductive AbortCause where
  | noAbort
  | timeoutElapsed
  | externalSignal
  deriving DecidableEq, Repr

/-- Outcome of the underlying `fetch` call bound to the composite signal:
if either abort source fired, `fetch` rejects with a DOM `AbortError`;
otherwise the transport outcome (a response, or a transport error)
passes through. -/
def fetchOutcome (cause : AbortCause) (transport : Except JsError Response) :
    Except JsError Response :=
  match cause with
  | .noAbort => transport
  | .timeoutElapsed => .error abortError
  | .externalSignal => .error abortError

/-- Parsera.fetchWithTimeout (parsera.ts lines 255-289): runs `fetch`
under the composite signal; on success returns the response; on an error
named "AbortError" throws `timeoutError` ("Request timed out"); any
other error passes through unchanged. -/
def fetchWithTimeout (cause : AbortCause) (transport : Except JsError Response) :
    Except JsError Response :=
  match fetchOutcome cause transport with
  | .ok r => .ok r
  | .error e => if e.name = "AbortError" then .error timeoutError else .error e

/-- Observable events of one logical extraction: the emissions of the
client (`rateLimit`, `request:retry`, `timeout`, `request:error`,
`extract:start`, `extract:complete`, `extract:error`, `handler:error`),
plus two bookkeeping markers: `attempt` marks one transport call made by
`retryableRequest`, and `waitDelay ms` marks the backoff sleep. -/
inductive Event where
  | attempt
  | rateLimit (retryCount : Nat)
  | requestRetry (retryCount : Nat)
  | timeoutEv (e : JsError)
  | requestError (e : JsError)
  | waitDelay (ms : Nat)
  | extractStart
  | extractComplete
  | extractError (e : JsError)
  | handlerError (e : JsError)
  deriving DecidableEq, Repr

/-- Recogniser for `attempt` markers. -/
def isAttemptEv : Event → Bool
  | .attempt => true
  | _ => false

/-- Recogniser for `rateLimit` events. -/
def isRateLimitEv : Event → Bool
  | .rateLimit _ => true
  | _ => false

/-- Recogniser for `request:retry` events. -/
def isRetryEv : Event → Bool
  | .requestRetry _ => true
  | _ => false

/-- Recogniser for `timeout` events. -/
def isTimeoutEv : Event → Bool
  | .timeoutEv _ => true
  | _ => false

/-- Recogniser for `extract:error` events. -/
def isExtractErrorEv : Event → Bool
  | .extractError _ => true
  | _ => false

/-- Recogniser for `extract:complete` events. -/
def isCompleteEv : Event → Bool
  | .extractComplete => true
  | _ => false

/-- Recogniser for `extract:start` events. -/
def isStartEv : Event → Bool
  | .extractStart => true
  | _ => false

/-- Parsera.retryableRequest (parsera.ts lines 291-335), with the
transport modelled as a script listing the outcome of each successive
`requestFn()` call (each outcome is what `fetchWithTimeout` produced for
that attempt). Each recursion makes one attempt (marker `attempt`):
a 429 response below `maxRetries` emits `rateLimit` and `request:retry`,
sleeps `initialDelay * backoffFactor ^ retryCount`, and retries; any
other response is returned. A thrown error emits `timeout` first when
its name is "AbortError", then `request:error`; if it is retryable and
retries remain, `request:retry` is emitted, the same backoff sleep
happens, and the attempt is retried; otherwise the error propagates.
An exhausted script (never reached under the theorems' scripts) yields a
placeholder error. -/
def retryableRequest (ro : RetryOptions) :
    List (Except JsError Response) → Nat → List Event × Except JsError Response
  | [], _ => ([], .error { name := "Error", message := "transport script exhausted" })
  | outcome :: rest, retryCount =>
    match outcome with
    | .ok response =>
      if response.status = 429 ∧ retryCount < ro.maxRetries then
        let delay := ro.initialDelay * ro.backoffFactor ^ retryCount
        let next := retryableRequest ro rest (retryCount + 1)
        (Event.attempt :: Event.rateLimit retryCount :: Event.requestRetry retryCount ::
          Event.waitDelay delay :: next.1, next.2)
      else
        ([Event.attempt], .ok response)
    | .error e =>
      let timeoutEvents := if e.name = "AbortError" then [Event.timeoutEv e] else []
      if retryCount < ro.maxRetries ∧ isRetryableError e then
        let delay := ro.initialDelay * ro.backoffFactor ^ retryCount
        let next := retryableRequest ro rest (retryCount + 1)
        (Event.attempt :: timeoutEvents ++ Event.requestError e ::
          Event.requestRetry retryCount :: Event.waitDelay delay :: next.1, next.2)
      else
        (Event.attempt :: timeoutEvents ++ [Event.requestError e], .error e)

/-- JavaScript `x || d` on an optional string field: `undefined` and the
empty string are falsy and select the default. -/
def strOrDefault (m : Option String) (d : String) : String :=
  match m with
  | none => d
  | some s => if s = "" then d else s

/-- Parsera.handleError (parsera.ts lines 635-655): maps a non-ok
response's status to the thrown error. -/
def handleError (response : Response) : JsError :=
  match response.status with
  | 401 => { name := "Error",
             message := "Invalid Parsera API key. Please check your credentials." }
  | 429 => { name := "Error",
             message := "Rate limit exceeded. Please try again later." }
  | 400 => { name := "Error",
             message := "Bad request: " ++ strOrDefault response.body.message "Unknown error" }
  | _ => { name := "Error",
           message := "Parsera API error: " ++
             strOrDefault response.body.message response.statusText }

/-- The terminal 429 mapping of `handleError` (RateLimitExceeded). -/
def rateLimitExceededError : JsError :=
  { name := "Error", message := "Rate limit exceeded. Please try again later." }

/-- The fixed message of the NoData failure (parsera.ts lines 582-583). -/
def noDataMessage : String :=
  "No data returned from Parsera API. Make sure the website contains the data and the attribute descriptions are clear."

/-- The error thrown by `validateUrl` (parsera.ts line 239) when `new URL`
rejects the string: the InvalidInput failure. -/
def invalidUrlError : JsError :=
  { name := "Error", message := "Invalid URL format" }

/-- The catch clause of `extract` (parsera.ts lines 589-598): an error
whose message is exactly "Request timed out" is re-thrown unchanged;
every other error is wrapped with the "Failed to extract data: " prefix,
preserving the original message. -/
def wrapExtract (e : JsError) : JsError :=
  if e.message = "Request timed out" then e
  else { name := "Error", message := "Failed to extract data: " ++ e.message }

/-- The try block of `extract` (parsera.ts lines 546-588), after URL
validation: run `retryableRequest` on the transport script; on a non-ok
response throw `handleError`'s mapping; on an empty data collection throw
the NoData error (server message if truthy, else the fixed message); on
success emit `extract:complete` and produce the payload. -/
def extractTry (ro : RetryOptions) (script : List (Except JsError Response)) :
    List Event × Except JsError RespBody :=
  let req := retryableRequest ro script 0
  match req.2 with
  | .error e => (req.1, .error e)
  | .ok response =>
    if response.ok = false then
      (req.1, .error (handleError response))
    else if response.body.data.isEmpty then
      (req.1, .error { name := "Error",
                       message := strOrDefault response.body.message noDataMessage })
    else
      (req.1 ++ [Event.extractComplete], .ok response.body)

/-- Parsera.extract (parsera.ts lines 527-599): emit `extract:start`
unconditionally, then validate the URL (an invalid URL throws
`invalidUrlError` outside the try block: no `extract:error`, no
attempt); then run the try block; a failure there is emitted as
`extract:error` and re-thrown through `wrapExtract`. URL validity
(`new URL(url)` succeeding) is passed as a boolean. The result is the
payload's `data` collection. -/
def extract (ro : RetryOptions) (urlValid : Bool) (script : List (Except JsError Response)) :
    List Event × Except JsError (List (List (String × String))) :=
  if urlValid = false then
    ([Event.extractStart], .error invalidUrlError)
  else
    let tryRes := extractTry ro script
    match tryRes.2 with
    | .ok body => (Event.extractStart :: tryRes.1, .ok body.data)
    | .error e =>
      (Event.extractStart :: tryRes.1 ++ [Event.extractError e],
       .error (wrapExtract e))

/-- Delivery options for one event type (`ParseraEventOptions` with
defaults filled in: `async` false, `catchErrors` true). -/
structure EventOptions where
  async : Bool
  catchErrors : Bool
  deriving DecidableEq, Repr

/-- The options argument of `on`, before defaults are filled in
(each field may be omitted). -/
structure EventOptionsInput where
  async : Option Bool
  catchErrors : Option Bool
  deriving DecidableEq, Repr

/-- Default filling done by `on` (parsera.ts lines 390-393):
`options.async ?? false`, `options.catchErrors ?? true`. -/
def fillDefaults (o : EventOptionsInput) : EventOptions :=
  { async := o.async.getD false, catchErrors := o.catchErrors.getD true }

/-- The event-registration state of a client instance: the two `Map`s
`eventHandlers` (event type to insertion-ordered set of handlers,
handlers named by numbers) and `eventOptions` (event type to delivery
options), modelled as association lists. -/
structure BusState where
  handlers : List (String × List Nat)
  options : List (String × EventOptions)
  deriving DecidableEq, Repr

/-- `Map.set`: replace the binding of `k` when present, else append it. -/
def assocSet (m : List (String × α)) (k : String) (v : α) : List (String × α) :=
  match m with
  | [] => [(k, v)]
  | (k', v') :: rest => if k' = k then (k, v) :: rest else (k', v') :: assocSet rest k v

/-- `Set.add`: append the handler unless it is already registered
(JavaScript `Set` preserves insertion order and ignores duplicates). -/
def setAdd (s : List Nat) (h : Nat) : List Nat :=
  if h ∈ s then s else s ++ [h]

/-- Parsera.on (parsera.ts lines 381-394; named `onEvent` here because
`on` is a reserved token in this Lean environment): add the handler to
the type's handler set (creating it when absent) and overwrite the
type's stored options with the new options, defaults filled in. -/
def onEvent (st : BusState) (eventType : String) (handler : Nat)
    (opts : EventOptionsInput) : BusState :=
  let existing := (st.handlers.lookup eventType).getD []
  { handlers := assocSet st.handlers eventType (setAdd existing handler),
    options := assocSet st.options eventType (fillDefaults opts) }

/-- The handler set `emit` reads for an event type (parsera.ts line 426). -/
def handlersOf (st : BusState) (eventType : String) : List Nat :=
  (st.handlers.lookup eventType).getD []

/-- The options `emit` resolves for an event type (parsera.ts lines
437-440): the stored options, else `async` false / `catchErrors` true. -/
def emitOptions (st : BusState) (eventType : String) : EventOptions :=
  (st.options.lookup eventType).getD { async := false, catchErrors := true }

/-- The `handleEvent` closure of `emit` (parsera.ts lines 442-451),
with the handler's run abstracted to its outcome: a failing handler's
error is re-thrown when `catchErrors` is false, and re-emitted as a
`handler:error` event when `catchErrors` is true. -/
def handleEvent (catchErrors : Bool) (outcome : Except JsError Unit) :
    List Event × Except JsError Unit :=
  match outcome with
  | .ok _ => ([], .ok ())
  | .error e =>
    if catchErrors then ([Event.handlerError e], .ok ())
    else ([], .error e)

/-- `Promise.all` over the handler promises (parsera.ts lines 458-460):
every handler runs; the combined promise rejects with the first
rejection when one exists, else resolves. -/
def promiseAll : List (Except JsError Unit) → Except JsError Unit
  | [] => .ok ()
  | .ok _ :: rest => promiseAll rest
  | .error e :: _ => .error e

/-- The synchronous (default, `async` false) branch of Parsera.emit
(parsera.ts lines 457-461) for one emission, each registered handler
abstracted to its outcome: run `handleEvent` on every handler and await
them all via `promiseAll`. The trace lists the `handler:error`
re-emissions. -/
def emitSync (catchErrors : Bool) (outcomes : List (Except JsError Unit)) :
    List Event × Except JsError Unit :=
  let runs := outcomes.map (handleEvent catchErrors)
  (runs.flatMap Prod.fst, promiseAll (runs.map Prod.snd))

/-- The first failing handler outcome of an emission, which is the
rejection `Promise.all` surfaces. -/
def firstFailure : List (Except JsError Unit) → Option JsError
  | [] => none
  | .ok _ :: rest => firstFailure rest
  | .error e :: _ => some e

/-- Scheduling model for Parsera.emit's default branch (parsera.ts lines
457-461): a handler is a list of segments separated by its `await`
points, each segment a list of atomic effect labels. `Promise.all` over
`handlers.map(handleEvent)` starts every handler in registration order
(running each handler's first segment), then the microtask queue resumes
the continuations round by round: round r runs every handler's segment r
in registration order. `microtaskRounds n` runs `n` rounds. -/
def microtaskRounds : Nat → List (List (List Nat)) → List Nat
  | 0, _ => []
  | n + 1, hs => hs.flatMap (fun h => h.headD []) ++ microtaskRounds n (hs.map List.tail)

/-- Number of rounds needed to drain every handler: the maximum segment
count. -/
def maxSegments (hs : List (List (List Nat))) : Nat :=
  (hs.map List.length).foldr Nat.max 0

/-- The effect trace of one default-mode emission as the code performs
it: `Promise.all` concurrency (see `microtaskRounds`). -/
def emitPromiseAll (hs : List (List (List Nat))) : List Nat :=
  microtaskRounds (maxSegments hs) hs

/-- Modelled from the spec: the effect trace the claim describes for an
emission with default delivery options, namely awaiting every handler to
completion sequentially in registration order, so that an earlier
handler's effects all precede any later handler's. Spec-side definition
for the refinement comparison with `emitPromiseAll`. -/
def emitSequentialSpec (hs : List (List (List Nat))) : List Nat :=
  hs.flatMap List.flatten

/-- The first segments of every handler, in registration order: the
synchronous starts performed by the `map` before any await completes. -/
def firstSegments (hs : List (List (List Nat))) : List Nat :=
  hs.flatMap (fun h => h.headD [])

/-- A sample 429 response, as the test suite mocks it. -/
def resp429 : Response :=
  { ok := false, status := 429, statusText := "Too Many Requests",
    body := { data := [], message := some "Rate limit exceeded" } }

/-- A sample 500 response. -/
def resp500 : Response :=
  { ok := false, status := 500, statusText := "Internal Server Error",
    body := { data := [], message := none } }

/-- A sample successful response with a non-empty data collection. -/
def sampleResponse : Response :=
  { ok := true, status := 200, statusText := "OK",
    body := { data := [[("title", "Test Title"), ("price", "$99.99")]], message := none } }

/-- A sample failure thrown by an event handler. -/
def sampleHandlerFailure : JsError :=
  { name := "Error", message := "handler failed" }

/- Helper lemmas. -/

/-- The canonical Timeout failure is not classified retryable: its
message "Request timed out" contains none of the markers "network",
"timeout", "ECONNRESET". -/
theorem isRetryableError_timeoutError : isRetryableError timeoutError = false := by
  decide

/-- The retry controller's trace never contains an `extract:error`
event. -/
theorem retryableRequest_countP_extractError (ro : RetryOptions) :
    ∀ (script : List (Except JsError Response)) (k : Nat),
      ((retryableRequest ro script k).1.countP isExtractErrorEv) = 0 := by
  intro script
  induction script with
  | nil => intro k; simp [retryableRequest]
  | cons outcome rest ih =>
    intro k
    match outcome with
    | .ok response =>
      by_cases h : response.status = 429 ∧ k < ro.maxRetries
      · simp [retryableRequest, h, List.countP_cons, isExtractErrorEv, ih]
      · simp [retryableRequest, h, List.countP_cons, isExtractErrorEv]
    | .error e =>
      by_cases h : k < ro.maxRetries ∧ isRetryableError e = true
      · by_cases hn : e.name = "AbortError" <;>
          simp [retryableRequest, h, hn, List.countP_cons, List.countP_append,
            isExtractErrorEv, ih]
      · by_cases hn : e.name = "AbortError" <;>
          simp [retryableRequest, h, hn, List.countP_cons, List.countP_append,
            isExtractErrorEv]

/-- The try block's trace never contains an `extract:error` event. -/
theorem extractTry_countP_extractError (ro : RetryOptions)
    (script : List (Except JsError Response)) :
    ((extractTry ro script).1.countP isExtractErrorEv) = 0 := by
  have hbase := retryableRequest_countP_extractError ro script 0
  unfold extractTry
  cases hreq : (retryableRequest ro script 0).2 with
  | error e => simpa [hreq] using hbase
  | ok response =>
    by_cases hok : response.ok = false
    · simpa [hreq, hok] using hbase
    · by_cases hdata : response.body.data.isEmpty
      · simpa [hreq, hok, hdata] using hbase
      · simp only [hreq, hok, hdata]
        simpa [List.countP_append, isExtractErrorEv] using hbase

/-- A transport script consisting of `n + 1` responses that all carry
status 429 (and are non-ok), started at retry count `k` with
`k + n = maxRetries`, drains completely: the retry controller makes
`n + 1` attempts, retries after each 429 but the last, and returns the
last 429 response. -/
theorem retryableRequest_all429 (ro : RetryOptions) :
    ∀ (n k : Nat) (script : List (Except JsError Response)),
      script.length = n + 1 → k + n = ro.maxRetries →
      (∀ o ∈ script, ∃ resp : Response,
        o = Except.ok resp ∧ resp.status = 429 ∧ resp.ok = false) →
      ∃ (resp : Response) (tr : List Event),
        retryableRequest ro script k = (tr, .ok resp) ∧
        resp.status = 429 ∧ resp.ok = false ∧
        tr.countP isAttemptEv = n + 1 := by
  intro n
  induction n with
  | zero =>
    intro k script hlen hk hall
    match script, hlen with
    | [o], _ =>
      obtain ⟨resp, rfl, h429, hok⟩ := hall o (by simp)
      have hnotlt : ¬ (resp.status = 429 ∧ k < ro.maxRetries) := by
        rintro ⟨-, hlt⟩
        omega
      refine ⟨resp, [Event.attempt], ?_, h429, hok, ?_⟩
      · simp [retryableRequest, hnotlt]
      · simp [List.countP_cons, isAttemptEv]
  | succ n ih =>
    intro k script hlen hk hall
    match script, hlen with
    | o :: rest, hlen =>
      obtain ⟨r0, ho, h4290, hok0⟩ := hall o (by simp)
      subst ho
      have hcond : r0.status = 429 ∧ k < ro.maxRetries := ⟨h4290, by omega⟩
      obtain ⟨resp', tr', heq, h429', hok', hcount⟩ :=
        ih (k + 1) rest (by simpa using hlen) (by omega)
          (fun o ho => hall o (by simp [ho]))
      refine ⟨resp', Event.attempt :: Event.rateLimit k :: Event.requestRetry k ::
        Event.waitDelay (ro.initialDelay * ro.backoffFactor ^ k) ::
        (retryableRequest ro rest (k + 1)).1, ?_, h429', hok', ?_⟩
      · simp [retryableRequest, hcond, heq]
      · rw [heq] at *
        simp [List.countP_cons, isAttemptEv]
        omega

/-- Every handler's segment count bounds nothing beyond `maxSegments`. -/
theorem length_le_maxSegments :
    ∀ (hs : List (List (List Nat))) (h : List (List Nat)), h ∈ hs →
      h.length ≤ maxSegments hs := by
  intro hs
  induction hs with
  | nil => simp
  | cons a t ih =>
    intro h hmem
    rcases List.mem_cons.mp hmem with rfl | hm
    · exact Nat.le_max_left _ _
    · exact Nat.le_trans (ih h hm) (Nat.le_max_right _ _)

open List in
/-- Splitting every handler into its first segment and the rest
preserves the multiset of effects. -/
theorem heads_tails_perm :
    ∀ hs : List (List (List Nat)),
      (hs.flatMap (fun h => h.headD []) ++
        (hs.map List.tail).flatMap List.flatten).Perm (hs.flatMap List.flatten) := by
  intro hs
  induction hs with
  | nil => simp
  | cons h hs' ih =>
    have hsplit : h.headD [] ++ h.tail.flatten = h.flatten := by
      cases h <;> simp
    calc ((h :: hs').flatMap (fun h => h.headD []) ++
            ((h :: hs').map List.tail).flatMap List.flatten)
        = h.headD [] ++ (hs'.flatMap (fun h => h.headD []) ++
            (h.tail.flatten ++ (hs'.map List.tail).flatMap List.flatten)) := by
          simp [List.append_assoc]
      _ ~ h.headD [] ++ (h.tail.flatten ++ (hs'.flatMap (fun h => h.headD []) ++
            (hs'.map List.tail).flatMap List.flatten)) := by
          refine List.Perm.append_left _ ?_
          calc (hs'.flatMap (fun h => h.headD []) ++
                  (h.tail.flatten ++ (hs'.map List.tail).flatMap List.flatten))
              = (hs'.flatMap (fun h => h.headD []) ++ h.tail.flatten) ++
                  (hs'.map List.tail).flatMap List.flatten := by
                simp [List.append_assoc]
            _ ~ (h.tail.flatten ++ hs'.flatMap (fun h => h.headD [])) ++
                  (hs'.map List.tail).flatMap List.flatten :=
                List.Perm.append_right _ List.perm_append_comm
            _ = h.tail.flatten ++ (hs'.flatMap (fun h => h.headD []) ++
                  (hs'.map List.tail).flatMap List.flatten) := by
                simp [List.append_assoc]
      _ ~ h.headD [] ++ (h.tail.flatten ++ hs'.flatMap List.flatten) :=
          List.Perm.append_left _ (List.Perm.append_left _ ih)
      _ = (h :: hs').flatMap List.flatten := by
          rw [← List.append_assoc, hsplit]
          simp

open List in
/-- Running enough microtask rounds delivers exactly the effects of all
handlers (as a multiset). -/
theorem microtaskRounds_perm :
    ∀ (n : Nat) (hs : List (List (List Nat))), (∀ h ∈ hs, h.length ≤ n) →
      (microtaskRounds n hs).Perm (hs.flatMap List.flatten) := by
  intro n
  induction n with
  | zero =>
    intro hs hlen
    have : hs.flatMap List.flatten = [] := by
      induction hs with
      | nil => rfl
      | cons a t iht =>
        have ha : a = [] := List.eq_nil_of_length_eq_zero
          (Nat.le_zero.mp (hlen a (by simp)))
        simp [ha, iht (fun h hm => hlen h (by simp [hm]))]
    simp [microtaskRounds, this]
  | succ n ih =>
    intro hs hlen
    have htails : ∀ h ∈ hs.map List.tail, h.length ≤ n := by
      intro h hm
      obtain ⟨h0, hm0, rfl⟩ := List.mem_map.mp hm
      have := hlen h0 hm0
      cases h0 with
      | nil => simp
      | cons s t =>
        simp at this ⊢
        omega
    calc microtaskRounds (n + 1) hs
        = hs.flatMap (fun h => h.headD []) ++ microtaskRounds n (hs.map List.tail) := rfl
      _ ~ hs.flatMap (fun h => h.headD []) ++ (hs.map List.tail).flatMap List.flatten :=
          List.Perm.append_left _ (ih (hs.map List.tail) htails)
      _ ~ hs.flatMap List.flatten := heads_tails_perm hs

/-- `emitSync` with `catchErrors` resolves: every handler failure is
swallowed. -/
theorem emitSync_true_snd (outcomes : List (Except JsError Unit)) :
    (emitSync true outcomes).2 = .ok () := by
  induction outcomes with
  | nil => rfl
  | cons o rest ih =>
    cases o <;> simpa [emitSync, handleEvent, promiseAll] using ih

/-- `emitSync` with `catchErrors` re-emits exactly the failing handlers'
errors as `handler:error` events, in registration order. -/
theorem emitSync_true_fst (outcomes : List (Except JsError Unit)) :
    (emitSync true outcomes).1 = outcomes.filterMap (fun r =>
      match r with
      | .ok _ => none
      | .error e => some (Event.handlerError e)) := by
  induction outcomes with
  | nil => rfl
  | cons o rest ih =>
    cases o <;> simpa [emitSync, handleEvent, List.filterMap_cons] using ih

/-- `emitSync` without `catchErrors` emits no `handler:error` event. -/
theorem emitSync_false_fst (outcomes : List (Except JsError Unit)) :
    (emitSync false outcomes).1 = [] := by
  induction outcomes with
  | nil => rfl
  | cons o rest ih =>
    cases o <;> simpa [emitSync, handleEvent] using ih

/-- `emitSync` without `catchErrors` rejects with the first failing
handler's error. -/
theorem emitSync_false_snd (outcomes : List (Except JsError Unit)) (e : JsError)
    (h : firstFailure outcomes = some e) :
    (emitSync false outcomes).2 = .error e := by
  induction outcomes with
  | nil => simp [firstFailure] at h
  | cons o rest ih =>
    cases o with
    | ok u =>
      have h' : firstFailure rest = some e := by simpa [firstFailure] using h
      simpa [emitSync, handleEvent, promiseAll] using ih h'
    | error e' =>
      have h' : e' = e := by simpa [firstFailure] using h
      subst h'
      simp [emitSync, handleEvent, promiseAll]

/-- `Map.set` followed by `Map.get` for the same key yields the value
just stored. -/
theorem lookup_assocSet (m : List (String × α)) (k : String) (v : α) :
    (assocSet m k v).lookup k = some v := by
  induction m with
  | nil => simp [assocSet, List.lookup]
  | cons p rest ih =>
    by_cases h : p.1 = k
    · simp [assocSet, h, List.lookup]
    · have h' : (k == p.1) = false := by
        simp [beq_iff_eq]
        exact fun hk => h hk.symm
      simpa [assocSet, h, List.lookup, h'] using ih

/- Claim theorems. -/

/-- C1 counterexample: an attempt aborted because the externally supplied
cancellation signal fired surfaces exactly the same Timeout failure
("Request timed out", name "TimeoutError") as an attempt aborted because
the per-attempt timeout elapsed — the surfaced failure is a Timeout, not
a Cancelled failure distinct from Timeout. -/
theorem externalAbort_surfaces_timeout :
    fetchWithTimeout AbortCause.externalSignal (Except.ok sampleResponse) =
      Except.error timeoutError ∧
    fetchWithTimeout AbortCause.timeoutElapsed (Except.ok sampleResponse) =
      fetchWithTimeout AbortCause.externalSignal (Except.ok sampleResponse) :=
  ⟨rfl, rfl⟩

/-- C1 (amended): for every abort of a deadline-wrapped attempt — whether
the per-attempt timeout elapsed or the externally supplied cancellation
signal fired — and every transport outcome, the surfaced failure is the
Timeout failure "Request timed out"; the wrapper produces no distinct
Cancelled failure. -/
theorem fetchWithTimeout_abort_always_timeout
    (cause : AbortCause) (transport : Except JsError Response)
    (h : cause ≠ AbortCause.noAbort) :
    fetchWithTimeout cause transport = Except.error timeoutError := by
  cases cause with
  | noAbort => exact absurd rfl h
  | timeoutElapsed => rfl
  | externalSignal => rfl

/-- C1 witness: the amended theorem applied to an external-signal abort. -/
theorem fetchWithTimeout_abort_always_timeout_witness :
    AbortCause.externalSignal ≠ AbortCause.noAbort ∧
    fetchWithTimeout AbortCause.externalSignal (Except.ok sampleResponse) =
      Except.error timeoutError :=
  ⟨by decide,
   fetchWithTimeout_abort_always_timeout AbortCause.externalSignal
     (Except.ok sampleResponse) (by decide)⟩

/-- C2 counterexample: an attempt under the default retry policy whose
transport call fails with the deadline wrapper's Timeout failure emits
only `request:error` — zero `timeout` events are emitted for that
attempt (the emission is guarded by the name "AbortError", which the
wrapper rewrote to "TimeoutError"), and the attempt is not retried. -/
theorem timeout_no_timeout_event_counterexample :
    retryableRequest { maxRetries := 3, backoffFactor := 2, initialDelay := 1000 }
        [Except.error timeoutError] 0 =
      ([Event.attempt, Event.requestError timeoutError], Except.error timeoutError) ∧
    ((retryableRequest { maxRetries := 3, backoffFactor := 2, initialDelay := 1000 }
        [Except.error timeoutError] 0).1.countP isTimeoutEv) = 0 :=
  ⟨rfl, rfl⟩

/-- C2 (amended): for every retry policy, every attempt count and every
continuation of the transport script, an attempt failing with the
deadline wrapper's Timeout failure emits exactly `request:error` — no
`timeout` event (that event fires only for failures named "AbortError",
which the wrapper never lets through) and no `request:retry` — and the
failure propagates without a retry. -/
theorem timeout_failure_emits_only_request_error (ro : RetryOptions)
    (retryCount : Nat) (rest : List (Except JsError Response)) :
    retryableRequest ro (Except.error timeoutError :: rest) retryCount =
      ([Event.attempt, Event.requestError timeoutError], Except.error timeoutError) ∧
    ((retryableRequest ro (Except.error timeoutError :: rest) retryCount).1.countP
        isTimeoutEv) = 0 ∧
    ((retryableRequest ro (Except.error timeoutError :: rest) retryCount).1.countP
        isRetryEv) = 0 := by
  have hn : timeoutError.name = "AbortError" ↔ False := by decide
  have heq : retryableRequest ro (Except.error timeoutError :: rest) retryCount =
      ([Event.attempt, Event.requestError timeoutError], Except.error timeoutError) := by
    simp [retryableRequest, hn, isRetryableError_timeoutError]
  refine ⟨heq, ?_, ?_⟩ <;> simp [heq, List.countP_cons, isTimeoutEv, isRetryEv]

/-- C3: retryability of a non-429 transport failure is the substring test
`isRetryableError`; the deadline wrapper's Timeout failure ("Request
timed out") matches none of the markers "network", "timeout",
"ECONNRESET", so for every retry-policy configuration and every attempt
count below maxRetries it is never retried: the failure propagates at
once with no `request:retry` event. -/
theorem timeout_never_retried (ro : RetryOptions) (retryCount : Nat)
    (rest : List (Except JsError Response)) (_h : retryCount < ro.maxRetries) :
    isRetryableError timeoutError = false ∧
    retryableRequest ro (Except.error timeoutError :: rest) retryCount =
      ([Event.attempt, Event.requestError timeoutError], Except.error timeoutError) ∧
    ((retryableRequest ro (Except.error timeoutError :: rest) retryCount).1.countP
        isRetryEv) = 0 := by
  have hn : timeoutError.name = "AbortError" ↔ False := by decide
  have heq : retryableRequest ro (Except.error timeoutError :: rest) retryCount =
      ([Event.attempt, Event.requestError timeoutError], Except.error timeoutError) := by
    simp [retryableRequest, hn, isRetryableError_timeoutError]
  exact ⟨isRetryableError_timeoutError, heq,
    by simp [heq, List.countP_cons, isRetryEv]⟩

/-- C3 witness: the default retry policy at attempt 0. -/
theorem timeout_never_retried_witness :
    (0 : Nat) < (3 : Nat) ∧
    (isRetryableError timeoutError = false ∧
     retryableRequest { maxRetries := 3, backoffFactor := 2, initialDelay := 1000 }
        (Except.error timeoutError :: []) 0 =
       ([Event.attempt, Event.requestError timeoutError], Except.error timeoutError) ∧
     ((retryableRequest { maxRetries := 3, backoffFactor := 2, initialDelay := 1000 }
        (Except.error timeoutError :: []) 0).1.countP isRetryEv) = 0) :=
  ⟨by decide,
   timeout_never_retried { maxRetries := 3, backoffFactor := 2, initialDelay := 1000 }
     0 [] (by decide)⟩

/-- C4: with retry policy maxRetries 3 / backoffFactor 2 /
initialDelay 1000 and a transport answering 429, 429, then a success
whose payload has a non-empty data collection, extract makes exactly 3
attempts, emits `rateLimit` and `request:retry` exactly twice, waits
1000 * 2 ^ n before the retry for attempt n, emits `extract:complete`
exactly once, and returns the final success payload's data collection. -/
theorem extract_429_429_success
    (s1 s2 sOk : String) (b1 b2 : RespBody) (msg : Option String)
    (r : List (String × String)) (rs : List (List (String × String))) :
    extract { maxRetries := 3, backoffFactor := 2, initialDelay := 1000 } true
        [Except.ok { ok := false, status := 429, statusText := s1, body := b1 },
         Except.ok { ok := false, status := 429, statusText := s2, body := b2 },
         Except.ok { ok := true, status := 200, statusText := sOk,
                     body := { data := r :: rs, message := msg } }] =
      ([Event.extractStart,
        Event.attempt, Event.rateLimit 0, Event.requestRetry 0,
        Event.waitDelay (1000 * 2 ^ 0),
        Event.attempt, Event.rateLimit 1, Event.requestRetry 1,
        Event.waitDelay (1000 * 2 ^ 1),
        Event.attempt, Event.extractComplete],
       Except.ok (r :: rs)) ∧
    ((extract { maxRetries := 3, backoffFactor := 2, initialDelay := 1000 } true
        [Except.ok { ok := false, status := 429, statusText := s1, body := b1 },
         Except.ok { ok := false, status := 429, statusText := s2, body := b2 },
         Except.ok { ok := true, status := 200, statusText := sOk,
                     body := { data := r :: rs, message := msg } }]).1.countP
        isAttemptEv) = 3 ∧
    ((extract { maxRetries := 3, backoffFactor := 2, initialDelay := 1000 } true
        [Except.ok { ok := false, status := 429, statusText := s1, body := b1 },
         Except.ok { ok := false, status := 429, statusText := s2, body := b2 },
         Except.ok { ok := true, status := 200, statusText := sOk,
                     body := { data := r :: rs, message := msg } }]).1.countP
        isRateLimitEv) = 2 ∧
    ((extract { maxRetries := 3, backoffFactor := 2, initialDelay := 1000 } true
        [Except.ok { ok := false, status := 429, statusText := s1, body := b1 },
         Except.ok { ok := false, status := 429, statusText := s2, body := b2 },
         Except.ok { ok := true, status := 200, statusText := sOk,
                     body := { data := r :: rs, message := msg } }]).1.countP
        isRetryEv) = 2 ∧
    ((extract { maxRetries := 3, backoffFactor := 2, initialDelay := 1000 } true
        [Except.ok { ok := false, status := 429, statusText := s1, body := b1 },
         Except.ok { ok := false, status := 429, statusText := s2, body := b2 },
         Except.ok { ok := true, status := 200, statusText := sOk,
                     body := { data := r :: rs, message := msg } }]).1.countP
        isCompleteEv) = 1 :=
  ⟨rfl, rfl, rfl, rfl, rfl⟩

/-- C5: for every retry policy, when the transport answers HTTP 429 on
every attempt, extract makes exactly maxRetries + 1 attempts, raises the
429 terminal mapping "Rate limit exceeded. Please try again later."
(wrapped by the extract catch clause), and emits `extract:error` exactly
once. -/
theorem extract_always_429 (ro : RetryOptions)
    (script : List (Except JsError Response))
    (hlen : script.length = ro.maxRetries + 1)
    (hall : ∀ o ∈ script, ∃ resp : Response,
      o = Except.ok resp ∧ resp.status = 429 ∧ resp.ok = false) :
    ((extract ro true script).1.countP isAttemptEv) = ro.maxRetries + 1 ∧
    ((extract ro true script).1.countP isExtractErrorEv) = 1 ∧
    (extract ro true script).2 = Except.error (wrapExtract rateLimitExceededError) ∧
    wrapExtract rateLimitExceededError =
      { name := "Error",
        message := "Failed to extract data: Rate limit exceeded. Please try again later." } := by
  obtain ⟨resp, tr, heq, h429, hok, hcount⟩ :=
    retryableRequest_all429 ro ro.maxRetries 0 script hlen (by omega) hall
  have herr : tr.countP isExtractErrorEv = 0 := by
    have hbase := retryableRequest_countP_extractError ro script 0
    rw [heq] at hbase
    exact hbase
  have hhe : handleError resp = rateLimitExceededError := by
    unfold handleError
    rw [h429]
    rfl
  have htry : extractTry ro script = (tr, Except.error rateLimitExceededError) := by
    unfold extractTry
    rw [heq]
    simp [hok, hhe]
  have hex : extract ro true script =
      (Event.extractStart :: tr ++ [Event.extractError rateLimitExceededError],
       Except.error (wrapExtract rateLimitExceededError)) := by
    simp [extract, htry]
  refine ⟨?_, ?_, ?_, ?_⟩
  · rw [hex]
    simp [List.countP_cons, List.countP_append, isAttemptEv, hcount]
  · rw [hex]
    simp [List.countP_cons, List.countP_append, isExtractErrorEv, herr]
  · rw [hex]
  · rfl

/-- C5 witness: a policy with one retry and a transport script of two
429 responses. -/
theorem extract_always_429_witness :
    ((extract { maxRetries := 1, backoffFactor := 2, initialDelay := 1000 } true
        [Except.ok resp429, Except.ok resp429]).1.countP isAttemptEv) = 1 + 1 ∧
    ((extract { maxRetries := 1, backoffFactor := 2, initialDelay := 1000 } true
        [Except.ok resp429, Except.ok resp429]).1.countP isExtractErrorEv) = 1 ∧
    (extract { maxRetries := 1, backoffFactor := 2, initialDelay := 1000 } true
        [Except.ok resp429, Except.ok resp429]).2 =
      Except.error (wrapExtract rateLimitExceededError) ∧
    wrapExtract rateLimitExceededError =
      { name := "Error",
        message := "Failed to extract data: Rate limit exceeded. Please try again later." } :=
  extract_always_429 { maxRetries := 1, backoffFactor := 2, initialDelay := 1000 }
    [Except.ok resp429, Except.ok resp429] (by simp)
    (by
      intro o ho
      simp [List.mem_cons] at ho
      subst ho
      exact ⟨resp429, rfl, rfl, rfl⟩)

/-- C6: for every retry policy and every transport script, an extract
call whose URL fails syntactic validation emits `extract:start` exactly
once (and nothing else: it is the whole trace, so it precedes any
network attempt), then fails with the InvalidInput failure "Invalid URL
format"; no `extract:error` is emitted and no attempt occurs. -/
theorem extract_invalid_url (ro : RetryOptions)
    (script : List (Except JsError Response)) :
    extract ro false script = ([Event.extractStart], Except.error invalidUrlError) ∧
    ((extract ro false script).1.countP isStartEv) = 1 ∧
    ((extract ro false script).1.countP isExtractErrorEv) = 0 ∧
    ((extract ro false script).1.countP isAttemptEv) = 0 :=
  ⟨rfl, rfl, rfl, rfl⟩

/-- C7: every failure of the try block of extract (HTTP error mapping,
empty-data NoData, transport failure) is caught, emitted as
`extract:error` exactly once, and re-raised: a failure whose message is
"Request timed out" (the Timeout failure) is re-raised unchanged, and
every other failure is re-raised wrapped with the fixed
"Failed to extract data: " prefix preserving the original message. -/
theorem extract_error_wrapped (ro : RetryOptions)
    (script : List (Except JsError Response)) (e : JsError)
    (h : (extractTry ro script).2 = Except.error e) :
    extract ro true script =
      (Event.extractStart :: (extractTry ro script).1 ++ [Event.extractError e],
       Except.error (wrapExtract e)) ∧
    ((extract ro true script).1.countP isExtractErrorEv) = 1 ∧
    (e.message = "Request timed out" → wrapExtract e = e) ∧
    (e.message ≠ "Request timed out" →
      wrapExtract e = { name := "Error",
                        message := "Failed to extract data: " ++ e.message }) := by
  have hex : extract ro true script =
      (Event.extractStart :: (extractTry ro script).1 ++ [Event.extractError e],
       Except.error (wrapExtract e)) := by
    unfold extract
    simp [h]
  refine ⟨hex, ?_, ?_, ?_⟩
  · rw [hex]
    simp [List.countP_cons, List.countP_append, isExtractErrorEv,
      extractTry_countP_extractError]
  · intro hm
    simp [wrapExtract, hm]
  · intro hm
    simp [wrapExtract, hm]

/-- C7 witness: a transport script answering HTTP 500 once. -/
theorem extract_error_wrapped_witness :
    extract { maxRetries := 3, backoffFactor := 2, initialDelay := 1000 } true
        [Except.ok resp500] =
      (Event.extractStart ::
        (extractTry { maxRetries := 3, backoffFactor := 2, initialDelay := 1000 }
          [Except.ok resp500]).1 ++
        [Event.extractError
          { name := "Error", message := "Parsera API error: Internal Server Error" }],
       Except.error (wrapExtract
          { name := "Error", message := "Parsera API error: Internal Server Error" })) ∧
    ((extract { maxRetries := 3, backoffFactor := 2, initialDelay := 1000 } true
        [Except.ok resp500]).1.countP isExtractErrorEv) = 1 ∧
    (JsError.message
        { name := "Error", message := "Parsera API error: Internal Server Error" } =
        "Request timed out" →
      wrapExtract { name := "Error", message := "Parsera API error: Internal Server Error" } =
        { name := "Error", message := "Parsera API error: Internal Server Error" }) ∧
    (JsError.message
        { name := "Error", message := "Parsera API error: Internal Server Error" } ≠
        "Request timed out" →
      wrapExtract { name := "Error", message := "Parsera API error: Internal Server Error" } =
        { name := "Error",
          message := "Failed to extract data: " ++
            JsError.message
              { name := "Error", message := "Parsera API error: Internal Server Error" } }) :=
  extract_error_wrapped { maxRetries := 3, backoffFactor := 2, initialDelay := 1000 }
    [Except.ok resp500]
    { name := "Error", message := "Parsera API error: Internal Server Error" } rfl

/-- Helper: when no handler has any segment, the first-segment trace is
empty. -/
theorem firstSegments_eq_nil (hs : List (List (List Nat)))
    (h : ∀ x ∈ hs, x.length = 0) : firstSegments hs = [] := by
  induction hs with
  | nil => rfl
  | cons a t ih =>
    have ha : a = [] := List.eq_nil_of_length_eq_zero (h a (by simp))
    have ht : firstSegments t = [] := ih (fun x hx => h x (by simp [hx]))
    simp only [firstSegments] at ht ⊢
    rw [List.flatMap_cons, ha, ht]
    rfl

open List in
/-- C8 counterexample: with two handlers registered in this order — the
first with effects [1] then, after an await, [2]; the second with the
single segment [3] — the default-mode emission (`Promise.all`) produces
the effect order [1, 3, 2]: the second handler starts before the first
handler's effects complete, contradicting sequential in-order awaited
delivery, which would produce [1, 2, 3]. -/
theorem emit_not_sequential_counterexample :
    emitPromiseAll [[[1], [2]], [[3]]] = [1, 3, 2] ∧
    emitSequentialSpec [[[1], [2]], [[3]]] = [1, 2, 3] ∧
    emitPromiseAll [[[1], [2]], [[3]]] ≠ emitSequentialSpec [[[1], [2]], [[3]]] := by
  refine ⟨rfl, rfl, ?_⟩
  decide

open List in
/-- C8 (amended): for every list of registered handlers, a default-mode
emission starts every handler in registration order (the trace begins
with the handlers' first segments in registration order) and awaits the
completion of every handler before the emitting operation proceeds (the
emission's trace is a permutation of all handlers' effects, so every
effect has completed when it returns); however the handlers run
concurrently, so an earlier handler's later segments may interleave
after a later handler starts. -/
theorem emit_awaits_all_handlers (hs : List (List (List Nat))) :
    (emitPromiseAll hs).Perm (emitSequentialSpec hs) ∧
    ∃ t, emitPromiseAll hs = firstSegments hs ++ t := by
  constructor
  · exact microtaskRounds_perm (maxSegments hs) hs
      (fun h hm => length_le_maxSegments hs h hm)
  · cases hmax : maxSegments hs with
    | zero =>
      have hnil : firstSegments hs = [] := by
        refine firstSegments_eq_nil hs (fun x hx => ?_)
        have := length_le_maxSegments hs x hx
        omega
      exact ⟨[], by simp [emitPromiseAll, hmax, microtaskRounds, hnil]⟩
    | succ n =>
      exact ⟨microtaskRounds n (hs.map List.tail), by
        simp [emitPromiseAll, hmax, microtaskRounds, firstSegments]⟩

/-- C9: for every list of synchronously awaited handler outcomes
containing at least one failure: with `catchErrors` true (the default),
the emission resolves (no failure reaches the caller of emit) and every
failing handler's error is re-emitted as a `handler:error` event; with
`catchErrors` false, the first failing handler's error propagates out of
the emission call (and no `handler:error` is emitted). -/
theorem emit_catchErrors_isolation (outcomes : List (Except JsError Unit))
    (e : JsError) (h : firstFailure outcomes = some e) :
    (emitSync true outcomes).2 = Except.ok () ∧
    (emitSync true outcomes).1 = outcomes.filterMap (fun r =>
      match r with
      | .ok _ => none
      | .error e' => some (Event.handlerError e')) ∧
    (emitSync false outcomes).2 = Except.error e ∧
    (emitSync false outcomes).1 = [] :=
  ⟨emitSync_true_snd outcomes, emitSync_true_fst outcomes,
   emitSync_false_snd outcomes e h, emitSync_false_fst outcomes⟩

/-- C9 witness: a single failing handler. -/
theorem emit_catchErrors_isolation_witness :
    firstFailure [Except.error sampleHandlerFailure] = some sampleHandlerFailure ∧
    ((emitSync true [Except.error sampleHandlerFailure]).2 = Except.ok () ∧
     (emitSync true [Except.error sampleHandlerFailure]).1 =
       ([Except.error sampleHandlerFailure] :
          List (Except JsError Unit)).filterMap (fun r =>
         match r with
         | .ok _ => none
         | .error e' => some (Event.handlerError e')) ∧
     (emitSync false [Except.error sampleHandlerFailure]).2 =
       Except.error sampleHandlerFailure ∧
     (emitSync false [Except.error sampleHandlerFailure]).1 = []) :=
  ⟨rfl, emit_catchErrors_isolation [Except.error sampleHandlerFailure]
    sampleHandlerFailure rfl⟩

/-- C10: delivery options are stored per event type and every
subscription overwrites them: after registering handler h1 with options
o1 and then handler h2 with options o2 on the same type, the type's
handler set holds both handlers in registration order, while the options
`emit` resolves for the type are o2 (defaults filled in) — the options
of the most recent `on` call govern every handler of that type. -/
theorem on_overwrites_options (st : BusState) (t : String) (h1 h2 : Nat)
    (o1 o2 : EventOptionsInput) :
    emitOptions (onEvent (onEvent st t h1 o1) t h2 o2) t = fillDefaults o2 ∧
    handlersOf (onEvent (onEvent st t h1 o1) t h2 o2) t =
      setAdd (setAdd (handlersOf st t) h1) h2 := by
  constructor
  · simp [emitOptions, onEvent, lookup_assocSet]
  · simp [handlersOf, onEvent, lookup_assocSet]

end Parsera
